import Mathlib

/-!
A shallow embedding of the benchmark statistics module
(`crates/sui-benchmark/src/drivers/mod.rs`): the `BenchmarkStats`
snapshot type, its `update` merge, the numeric row of `to_table`, the
`BenchmarkCmp` comparator with its ten metric comparisons, the
`Interval` parsing helpers, and a model of the latency histogram.

Modelling conventions:
* Rust `u64` values are `Nat` (no property considered here involves
  wrap-around, and the divisions below cannot overflow).
* Rust `f64` arithmetic is modelled by `FVal`: an exact rational
  together with the IEEE special values `inf`, `neginf` and `nan`
  produced by division by zero.  The source only adds `1.0` to, and
  divides, values converted from integers, so the exact-rational model
  matches the floating computation wherever the integers involved are
  exactly representable.
* A Rust panic (integer division by zero) is modelled by `Option.none`.
* The latency histogram of the external `hdrhistogram` crate is
  modelled as the multiset (list) of recorded values.
-/

namespace SuiBench

/-- An `f64` value: an exact rational or one of the IEEE special values. -/
inductive FVal where
  | fin (q : ℚ)
  | inf
  | neginf
  | nan
deriving DecidableEq, Repr

namespace FVal

/-- Division of `f64` values, with the IEEE behaviour on a zero divisor:
`0.0 / 0.0` is `nan`, a nonzero value divided by `0.0` is a signed
infinity. -/
def fdiv : FVal → FVal → FVal
  | fin a, fin b =>
      if b = 0 then (if a = 0 then nan else if 0 < a then inf else neginf)
      else fin (a / b)
  | nan, _ => nan
  | _, nan => nan
  | fin _, inf => fin 0
  | fin _, neginf => fin 0
  | inf, fin b => if 0 ≤ b then inf else neginf
  | neginf, fin b => if 0 ≤ b then neginf else inf
  | inf, inf => nan
  | inf, neginf => nan
  | neginf, inf => nan
  | neginf, neginf => nan

/-- Addition of `f64` values (the source only ever adds the constant
`1.0`, which is exact). -/
def fadd : FVal → FVal → FVal
  | fin a, fin b => fin (a + b)
  | nan, _ => nan
  | _, nan => nan
  | inf, neginf => nan
  | neginf, inf => nan
  | inf, _ => inf
  | _, inf => inf
  | neginf, _ => neginf
  | _, neginf => neginf

/-- `x as f64` for a Rust unsigned integer. -/
def ofNat (n : ℕ) : FVal := fin n

/-- `x as f64` for a Rust signed integer. -/
def ofInt (i : ℤ) : FVal := fin i

/-- The `speedup >= 1.0` test that classifies a comparison as an
improvement (`nan >= 1.0` is false in IEEE arithmetic). -/
def fge1 : FVal → Bool
  | fin q => decide (1 ≤ q)
  | inf => true
  | neginf => false
  | nan => false

end FVal

/-- Rust `std::time::Duration`: whole seconds plus a nanosecond
remainder. -/
structure Duration where
  secs : ℕ
  nanos : ℕ
deriving DecidableEq, Repr

/-- `Duration::as_secs`. -/
def Duration.as_secs (d : Duration) : ℕ := d.secs

/-- `Duration::MAX`: `u64::MAX` seconds plus `999_999_999` nanoseconds. -/
def Duration.MAX : Duration := ⟨18446744073709551615, 999999999⟩

/-- The smallest recorded value of a histogram, `0` when none was
recorded — the convention of `hdrhistogram`'s `min` on an empty
histogram. -/
def listMin : List ℕ → ℕ
  | [] => 0
  | [x] => x
  | x :: y :: xs => min x (listMin (y :: xs))

/-- The largest recorded value of a histogram, `0` when none was
recorded. -/
def listMax : List ℕ → ℕ
  | [] => 0
  | [x] => x
  | x :: y :: xs => max x (listMax (y :: xs))

/-- How many recorded values are at most `v`. -/
def countLE (h : List ℕ) (v : ℕ) : ℕ :=
  (h.filter (fun x => decide (x ≤ v))).length

/-- Modelled from the spec: `Histogram::value_at_quantile` of the
external `hdrhistogram` crate, "the latency value at or below which at
least fraction `q` of recorded observations fall" (§3), here without the
crate's bucket quantization: the smallest recorded value `v` such that
at least `max 1 ⌈q·n⌉` of the `n` recorded values are `≤ v`; `0` on an
empty histogram. -/
def value_at_quantile (h : List ℕ) (q : ℚ) : ℕ :=
  let needed := max 1 (Int.ceil (q * h.length)).toNat
  listMin (h.filter (fun v => decide (needed ≤ countLE h v)))

/-- The serde wrapper around the latency histogram; the histogram itself
is the list of recorded values. -/
structure HistogramWrapper where
  histogram : List ℕ
deriving DecidableEq, Repr

/-- Modelled from the spec: the error taxonomy of §7.  The Rust sources
of this repository contain no such type; the histogram codec model below
uses `CorruptEncoding`. -/
inductive ErrorKind where
  | OutOfRange
  | IncompatibleHistogram
  | CorruptEncoding
  | DegenerateBaseline
deriving DecidableEq, Repr

/-- Modelled from the spec: the versioned binary envelope written by the
V2 serializer of the external `hdrhistogram` crate (the crate's codec is
not part of this repository's sources).  Per §4.1 the envelope is a
non-optional version tag (`2`), then the payload — here the length and
the recorded values. -/
def encode (h : HistogramWrapper) : List ℕ :=
  2 :: h.histogram.length :: h.histogram

/-- Modelled from the spec: decoding checks the version tag and the
payload length, failing closed with `CorruptEncoding` on anything
unrecognized (§4.1, §7). -/
def decode : List ℕ → Except ErrorKind HistogramWrapper
  | 2 :: n :: rest =>
      if rest.length = n then .ok ⟨rest⟩ else .error .CorruptEncoding
  | _ => .error .CorruptEncoding

/-- Stores the final statistics of the test run. -/
structure BenchmarkStats where
  duration : Duration
  num_error : ℕ
  num_success : ℕ
  latency_ms : HistogramWrapper
deriving DecidableEq, Repr

/-- `BenchmarkStats::update`: overwrite `duration` with the `duration`
argument, add the sample's counters, merge the sample's histogram.
`Histogram::add` between the same-configuration histograms of this
module always succeeds, so the source's `unwrap` never fires and the
histogram merge is the total multiset union. -/
def BenchmarkStats.update (self : BenchmarkStats) (duration : Duration)
    (sample_stat : BenchmarkStats) : BenchmarkStats :=
  { duration := duration
    num_error := self.num_error + sample_stat.num_error
    num_success := self.num_success + sample_stat.num_success
    latency_ms := ⟨self.latency_ms.histogram ++ sample_stat.latency_ms.histogram⟩ }

/-- The numeric row of `BenchmarkStats::to_table`: duration in seconds,
tps, error rate, then the eight latency statistics.  The two `u64`
divisions of the source are unguarded and panic (`none`) on a zero
divisor. -/
def BenchmarkStats.to_table (s : BenchmarkStats) : Option (List ℕ) :=
  if s.duration.as_secs = 0 then none
  else if s.num_error + s.num_success = 0 then none
  else some [s.duration.as_secs,
    s.num_success / s.duration.as_secs,
    s.num_error / (s.num_error + s.num_success),
    listMin s.latency_ms.histogram,
    value_at_quantile s.latency_ms.histogram (1/4),
    value_at_quantile s.latency_ms.histogram (1/2),
    value_at_quantile s.latency_ms.histogram (3/4),
    value_at_quantile s.latency_ms.histogram (9/10),
    value_at_quantile s.latency_ms.histogram (99/100),
    value_at_quantile s.latency_ms.histogram (999/1000),
    listMax s.latency_ms.histogram]

/-- Rust `format!` with the `:.2` specifier applied to an unsigned
integer: `std::fmt` ignores the precision specifier for integral types,
so the output is the bare decimal digits. -/
def fmt2Nat (n : ℕ) : String := Nat.repr n

/-- Rust `format!` with the `:.2` specifier applied to a signed
integer: as for `fmt2Nat`, the precision is ignored and the output is
the signed decimal digits. -/
def fmt2Int (i : ℤ) : String :=
  if i < 0 then "-" ++ Nat.repr i.natAbs else Nat.repr i.natAbs

/-- A comparison between an old and a new benchmark, for one metric. -/
structure Comparison where
  name : String
  old_value : String
  new_value : String
  diff : ℤ
  diff_ratio : FVal
  speedup : FVal
deriving DecidableEq, Repr

/-- A pair of benchmark runs to compare. -/
structure BenchmarkCmp where
  new : BenchmarkStats
  old : BenchmarkStats

/-- `BenchmarkCmp::cmp_tps`.  The two `u64` divisions panic (`none`)
when the corresponding duration is zero seconds. -/
def BenchmarkCmp.cmp_tps (c : BenchmarkCmp) : Option Comparison :=
  if c.old.duration.as_secs = 0 then none
  else if c.new.duration.as_secs = 0 then none
  else
    let old_tps := c.old.num_success / c.old.duration.as_secs
    let new_tps := c.new.num_success / c.new.duration.as_secs
    let diff : ℤ := (new_tps : ℤ) - (old_tps : ℤ)
    let diff_ratio := FVal.fdiv (FVal.ofInt diff) (FVal.ofNat old_tps)
    let speedup := FVal.fadd (FVal.fin 1) diff_ratio
    some { name := "tps", old_value := fmt2Nat old_tps,
           new_value := fmt2Nat new_tps, diff := diff,
           diff_ratio := diff_ratio, speedup := speedup }

/-- `BenchmarkCmp::cmp_error_rate`.  The two `u64` divisions panic
(`none`) when the corresponding run has no requests at all. -/
def BenchmarkCmp.cmp_error_rate (c : BenchmarkCmp) : Option Comparison :=
  if c.old.num_error + c.old.num_success = 0 then none
  else if c.new.num_error + c.new.num_success = 0 then none
  else
    let old_error_rate := c.old.num_error / (c.old.num_error + c.old.num_success)
    let new_error_rate := c.new.num_error / (c.new.num_error + c.new.num_success)
    let diff : ℤ := (new_error_rate : ℤ) - (old_error_rate : ℤ)
    let diff_ratio := FVal.fdiv (FVal.ofInt diff) (FVal.ofNat old_error_rate)
    let speedup := FVal.fdiv (FVal.fin 1) (FVal.fadd (FVal.fin 1) diff_ratio)
    some { name := "error_rate", old_value := fmt2Nat old_error_rate,
           new_value := fmt2Nat new_error_rate, diff := diff,
           diff_ratio := diff_ratio, speedup := speedup }

/-- The shared body of the eight latency comparisons: both sides are
`u64` statistics cast to `i64`, and only `f64` division occurs, so the
comparison is total. -/
def latencyComparison (label : String) (oldv newv : ℕ) : Comparison :=
  let old : ℤ := (oldv : ℤ)
  let new : ℤ := (newv : ℤ)
  let diff := new - old
  let diff_ratio := FVal.fdiv (FVal.ofInt diff) (FVal.ofInt old)
  let speedup := FVal.fdiv (FVal.fin 1) (FVal.fadd (FVal.fin 1) diff_ratio)
  { name := label, old_value := fmt2Int old, new_value := fmt2Int new,
    diff := diff, diff_ratio := diff_ratio, speedup := speedup }

/-- `BenchmarkCmp::cmp_min_latency`. -/
def BenchmarkCmp.cmp_min_latency (c : BenchmarkCmp) : Comparison :=
  latencyComparison "min_latency" (listMin c.old.latency_ms.histogram)
    (listMin c.new.latency_ms.histogram)

/-- `BenchmarkCmp::cmp_p25_latency`. -/
def BenchmarkCmp.cmp_p25_latency (c : BenchmarkCmp) : Comparison :=
  latencyComparison "p25_latency"
    (value_at_quantile c.old.latency_ms.histogram (1/4))
    (value_at_quantile c.new.latency_ms.histogram (1/4))

/-- `BenchmarkCmp::cmp_p50_latency`. -/
def BenchmarkCmp.cmp_p50_latency (c : BenchmarkCmp) : Comparison :=
  latencyComparison "p50_latency"
    (value_at_quantile c.old.latency_ms.histogram (1/2))
    (value_at_quantile c.new.latency_ms.histogram (1/2))

/-- `BenchmarkCmp::cmp_p75_latency`. -/
def BenchmarkCmp.cmp_p75_latency (c : BenchmarkCmp) : Comparison :=
  latencyComparison "p75_latency"
    (value_at_quantile c.old.latency_ms.histogram (3/4))
    (value_at_quantile c.new.latency_ms.histogram (3/4))

/-- `BenchmarkCmp::cmp_p90_latency`. -/
def BenchmarkCmp.cmp_p90_latency (c : BenchmarkCmp) : Comparison :=
  latencyComparison "p90_latency"
    (value_at_quantile c.old.latency_ms.histogram (9/10))
    (value_at_quantile c.new.latency_ms.histogram (9/10))

/-- `BenchmarkCmp::cmp_p99_latency`. -/
def BenchmarkCmp.cmp_p99_latency (c : BenchmarkCmp) : Comparison :=
  latencyComparison "p99_latency"
    (value_at_quantile c.old.latency_ms.histogram (99/100))
    (value_at_quantile c.new.latency_ms.histogram (99/100))

/-- `BenchmarkCmp::cmp_p999_latency`. -/
def BenchmarkCmp.cmp_p999_latency (c : BenchmarkCmp) : Comparison :=
  latencyComparison "p999_latency"
    (value_at_quantile c.old.latency_ms.histogram (999/1000))
    (value_at_quantile c.new.latency_ms.histogram (999/1000))

/-- `BenchmarkCmp::cmp_max_latency`. -/
def BenchmarkCmp.cmp_max_latency (c : BenchmarkCmp) : Comparison :=
  latencyComparison "max_latency" (listMax c.old.latency_ms.histogram)
    (listMax c.new.latency_ms.histogram)

/-- `BenchmarkCmp::all_cmps`: the ten comparisons in report order; a
panic inside the tps or error-rate comparison aborts the whole call. -/
def BenchmarkCmp.all_cmps (c : BenchmarkCmp) : Option (List Comparison) :=
  match c.cmp_tps, c.cmp_error_rate with
  | some t, some e =>
      some [t, e, c.cmp_min_latency, c.cmp_p25_latency, c.cmp_p50_latency,
            c.cmp_p75_latency, c.cmp_p90_latency, c.cmp_p99_latency,
            c.cmp_p999_latency, c.cmp_max_latency]
  | _, _ => none

/-- Rust `u64::from_str`: an optional leading `+`, then at least one
decimal digit and nothing else, rejecting values that overflow `u64`. -/
def parseU64 (s : String) : Option ℕ :=
  let ds := match s.toList with
    | '+' :: rest => rest
    | cs => cs
  if ds ≠ [] ∧ ds.all Char.isDigit then
    let v := ds.foldl (fun a c => a * 10 + (c.toNat - 48)) 0
    if v < 18446744073709551616 then some v else none
  else none

/-- The run-length configuration value: a repetition count or a
duration. -/
inductive Interval where
  | Count (n : ℕ)
  | Time (d : Duration)
deriving DecidableEq, Repr

/-- `Interval::is_unbounded`: a pattern match against the constant
`Duration::MAX`, i.e. an equality test. -/
def Interval.is_unbounded : Interval → Bool
  | .Time d => decide (d = Duration.MAX)
  | _ => false

/-- `Interval::from_str`.  The duration grammar belongs to the external
`duration_str` crate and is passed in as the parameter `pd`. -/
def Interval.from_str (pd : String → Option Duration) (s : String) :
    Except String Interval :=
  match parseU64 s with
  | some i => .ok (.Count i)
  | none =>
      match pd s with
      | some d => .ok (.Time d)
      | none =>
          if s = "unbounded" then .ok (.Time Duration.MAX)
          else .error "Required integer number of cycles or time duration"

/-! ### Helper lemmas about the embedded arithmetic -/

theorem fdiv_fin_of_ne (a b : ℚ) (hb : b ≠ 0) :
    FVal.fdiv (.fin a) (.fin b) = .fin (a / b) := by
  simp [FVal.fdiv, hb]

theorem fdiv_zero_zero : FVal.fdiv (.fin 0) (.fin 0) = .nan := by
  simp [FVal.fdiv]

theorem fdiv_one_zero : FVal.fdiv (.fin 1) (.fin 0) = .inf := by
  norm_num [FVal.fdiv]

theorem fadd_fin_fin (a b : ℚ) : FVal.fadd (.fin a) (.fin b) = .fin (a + b) := rfl

/-- The higher-is-better polarity: over a positive baseline `o`, the
speedup `1 + (n - o)/o` passes the `>= 1.0` test exactly when `n` is at
least `o`. -/
theorem higher_fge1_core (o n : ℚ) (ho : 0 < o) :
    (FVal.fadd (.fin 1) (FVal.fdiv (.fin (n - o)) (.fin o))).fge1 = true ↔ o ≤ n := by
  rw [fdiv_fin_of_ne _ _ ho.ne', fadd_fin_fin]
  simp only [FVal.fge1, decide_eq_true_eq]
  rw [le_add_iff_nonneg_right, le_div_iff₀ ho, zero_mul, sub_nonneg]

/-- The lower-is-better polarity: over a positive baseline `o` and a
nonnegative `n`, the speedup `1 / (1 + (n - o)/o)` passes the `>= 1.0`
test exactly when `n` is at most `o` (for `n = 0` it is `inf`). -/
theorem lower_fge1_core (o n : ℚ) (ho : 0 < o) (hn : 0 ≤ n) :
    (FVal.fdiv (.fin 1) (FVal.fadd (.fin 1)
      (FVal.fdiv (.fin (n - o)) (.fin o)))).fge1 = true ↔ n ≤ o := by
  rw [fdiv_fin_of_ne _ _ ho.ne', fadd_fin_fin]
  have h1 : (1 : ℚ) + (n - o) / o = n / o := by field_simp
  rw [h1]
  rcases eq_or_lt_of_le hn with h0 | hpos
  · subst h0
    simp only [zero_div, fdiv_one_zero, FVal.fge1, true_iff]
    exact ho.le
  · have hno : n / o ≠ 0 := by positivity
    rw [fdiv_fin_of_ne _ _ hno]
    simp only [FVal.fge1, decide_eq_true_eq]
    rw [one_div_div, le_div_iff₀ hpos, one_mul]

theorem ofInt_sub_natCast (n o : ℕ) :
    FVal.ofInt ((n : ℤ) - (o : ℤ)) = .fin ((n : ℚ) - (o : ℚ)) := by
  simp [FVal.ofInt]

theorem ofInt_natCast (o : ℕ) : FVal.ofInt (o : ℤ) = .fin ((o : ℕ) : ℚ) := by
  simp [FVal.ofInt]

theorem ofNat_eq_fin (o : ℕ) : FVal.ofNat o = .fin ((o : ℕ) : ℚ) := rfl

/-! ### Helper lemmas about the comparator -/

/-- The guards of `cmp_tps` off the panicking branch. -/
theorem cmp_tps_eq (c : BenchmarkCmp) (h1 : c.old.duration.as_secs ≠ 0)
    (h2 : c.new.duration.as_secs ≠ 0) :
    c.cmp_tps = some
      { name := "tps"
        old_value := fmt2Nat (c.old.num_success / c.old.duration.as_secs)
        new_value := fmt2Nat (c.new.num_success / c.new.duration.as_secs)
        diff := ((c.new.num_success / c.new.duration.as_secs : ℕ) : ℤ) -
          ((c.old.num_success / c.old.duration.as_secs : ℕ) : ℤ)
        diff_ratio := FVal.fdiv
          (FVal.ofInt (((c.new.num_success / c.new.duration.as_secs : ℕ) : ℤ) -
            ((c.old.num_success / c.old.duration.as_secs : ℕ) : ℤ)))
          (FVal.ofNat (c.old.num_success / c.old.duration.as_secs))
        speedup := FVal.fadd (.fin 1) (FVal.fdiv
          (FVal.ofInt (((c.new.num_success / c.new.duration.as_secs : ℕ) : ℤ) -
            ((c.old.num_success / c.old.duration.as_secs : ℕ) : ℤ)))
          (FVal.ofNat (c.old.num_success / c.old.duration.as_secs))) } := by
  simp [BenchmarkCmp.cmp_tps, h1, h2]

/-- The guards of `cmp_error_rate` off the panicking branch. -/
theorem cmp_error_rate_eq (c : BenchmarkCmp)
    (h1 : c.old.num_error + c.old.num_success ≠ 0)
    (h2 : c.new.num_error + c.new.num_success ≠ 0) :
    c.cmp_error_rate = some
      { name := "error_rate"
        old_value := fmt2Nat (c.old.num_error / (c.old.num_error + c.old.num_success))
        new_value := fmt2Nat (c.new.num_error / (c.new.num_error + c.new.num_success))
        diff := ((c.new.num_error / (c.new.num_error + c.new.num_success) : ℕ) : ℤ) -
          ((c.old.num_error / (c.old.num_error + c.old.num_success) : ℕ) : ℤ)
        diff_ratio := FVal.fdiv
          (FVal.ofInt (((c.new.num_error / (c.new.num_error + c.new.num_success) : ℕ) : ℤ) -
            ((c.old.num_error / (c.old.num_error + c.old.num_success) : ℕ) : ℤ)))
          (FVal.ofNat (c.old.num_error / (c.old.num_error + c.old.num_success)))
        speedup := FVal.fdiv (.fin 1) (FVal.fadd (.fin 1) (FVal.fdiv
          (FVal.ofInt (((c.new.num_error / (c.new.num_error + c.new.num_success) : ℕ) : ℤ) -
            ((c.old.num_error / (c.old.num_error + c.old.num_success) : ℕ) : ℤ)))
          (FVal.ofNat (c.old.num_error / (c.old.num_error + c.old.num_success))))) } := by
  simp [BenchmarkCmp.cmp_error_rate, h1, h2]

/-- Any lower-is-better latency comparison applies the `1 / (1 + r)`
speedup formula to its own `diff_ratio`. -/
theorem latency_speedup_formula (label : String) (o n : ℕ) :
    (latencyComparison label o n).speedup =
      FVal.fdiv (.fin 1) (FVal.fadd (.fin 1) (latencyComparison label o n).diff_ratio) := rfl

/-- Over a positive baseline, a latency comparison's speedup passes
`>= 1.0` exactly when the new value does not exceed the old one. -/
theorem latency_fge1_iff (label : String) (o n : ℕ) (ho : 0 < o) :
    ((latencyComparison label o n).speedup.fge1 = true) ↔ n ≤ o := by
  show (FVal.fdiv (.fin 1) (FVal.fadd (.fin 1)
    (FVal.fdiv (FVal.ofInt ((n : ℤ) - (o : ℤ))) (FVal.ofInt (o : ℤ))))).fge1 = true ↔ n ≤ o
  rw [ofInt_sub_natCast, ofInt_natCast,
    lower_fge1_core ((o : ℕ) : ℚ) ((n : ℕ) : ℚ) (by exact_mod_cast ho) (by positivity)]
  exact_mod_cast Iff.rfl

/-- A latency metric compared against itself: zero diff always, and over
a positive value also a zero ratio and unit speedup. -/
theorem latency_self (label : String) (v : ℕ) :
    (latencyComparison label v v).diff = 0 ∧
    (0 < v → (latencyComparison label v v).diff_ratio = .fin 0 ∧
      (latencyComparison label v v).speedup = .fin 1) := by
  refine ⟨by simp [latencyComparison], fun hv => ?_⟩
  have hq : ((v : ℕ) : ℚ) ≠ 0 := by exact_mod_cast hv.ne'
  have hr : (latencyComparison label v v).diff_ratio = .fin 0 := by
    show FVal.fdiv (FVal.ofInt ((v : ℤ) - (v : ℤ))) (FVal.ofInt (v : ℤ)) = .fin 0
    rw [ofInt_sub_natCast, ofInt_natCast, fdiv_fin_of_ne _ _ hq]
    norm_num
  refine ⟨hr, ?_⟩
  rw [latency_speedup_formula, hr, fadd_fin_fin]
  rw [show (1 : ℚ) + 0 = 1 by norm_num, fdiv_fin_of_ne _ _ one_ne_zero]
  norm_num

/-- The latency value of a one-value histogram at any quantile at most
one. -/
theorem value_at_quantile_singleton (v : ℕ) (q : ℚ) (h1 : q ≤ 1) :
    value_at_quantile [v] q = v := by
  have hc : (Int.ceil (q * (([v] : List ℕ).length : ℚ))).toNat ≤ 1 := by
    simp only [List.length_singleton, Nat.cast_one, mul_one]
    have := Int.ceil_le_ceil (α := ℚ) h1
    rw [Int.ceil_one] at this
    omega
  unfold value_at_quantile
  rw [Nat.max_eq_left hc]
  simp [countLE, listMin]

/-- A comparison that was produced (did not panic) had both durations
nonzero. -/
theorem cmp_tps_some_inv (c : BenchmarkCmp) (t : Comparison)
    (ht : c.cmp_tps = some t) :
    c.old.duration.as_secs ≠ 0 ∧ c.new.duration.as_secs ≠ 0 := by
  by_cases h1 : c.old.duration.as_secs = 0
  · rw [BenchmarkCmp.cmp_tps, if_pos h1] at ht
    cases ht
  by_cases h2 : c.new.duration.as_secs = 0
  · rw [BenchmarkCmp.cmp_tps, if_neg h1, if_pos h2] at ht
    cases ht
  exact ⟨h1, h2⟩

/-- An error-rate comparison that was produced had both request totals
nonzero. -/
theorem cmp_error_rate_some_inv (c : BenchmarkCmp) (t : Comparison)
    (ht : c.cmp_error_rate = some t) :
    c.old.num_error + c.old.num_success ≠ 0 ∧
    c.new.num_error + c.new.num_success ≠ 0 := by
  by_cases h1 : c.old.num_error + c.old.num_success = 0
  · rw [BenchmarkCmp.cmp_error_rate, if_pos h1] at ht
    cases ht
  by_cases h2 : c.new.num_error + c.new.num_success = 0
  · rw [BenchmarkCmp.cmp_error_rate, if_neg h1, if_pos h2] at ht
    cases ht
  exact ⟨h1, h2⟩

/-- The higher-is-better speedup over `Nat` inputs with a positive old
value. -/
theorem higher_pair_fge1 (o n : ℕ) (ho : 0 < o) :
    (FVal.fadd (.fin 1) (FVal.fdiv (FVal.ofInt ((n : ℤ) - (o : ℤ)))
      (FVal.ofNat o))).fge1 = true ↔ o ≤ n := by
  rw [ofInt_sub_natCast, ofNat_eq_fin, higher_fge1_core _ _ (by exact_mod_cast ho)]
  exact Nat.cast_le

/-- The lower-is-better speedup over `Nat` inputs with a positive old
value. -/
theorem lower_pair_fge1 (o n : ℕ) (ho : 0 < o) :
    (FVal.fdiv (.fin 1) (FVal.fadd (.fin 1)
      (FVal.fdiv (FVal.ofInt ((n : ℤ) - (o : ℤ))) (FVal.ofNat o)))).fge1 = true ↔
      n ≤ o := by
  rw [ofInt_sub_natCast, ofNat_eq_fin,
    lower_fge1_core _ _ (by exact_mod_cast ho) (by positivity)]
  exact Nat.cast_le

/-- A value compared with itself under the higher-is-better formula:
zero ratio, unit speedup, over a positive value. -/
theorem self_pair_higher (T : ℕ) (hT : 0 < T) :
    FVal.fdiv (FVal.ofInt ((T : ℤ) - (T : ℤ))) (FVal.ofNat T) = .fin 0 ∧
    FVal.fadd (.fin 1)
      (FVal.fdiv (FVal.ofInt ((T : ℤ) - (T : ℤ))) (FVal.ofNat T)) = .fin 1 := by
  have h : FVal.fdiv (FVal.ofInt ((T : ℤ) - (T : ℤ))) (FVal.ofNat T) = .fin 0 := by
    rw [ofInt_sub_natCast, ofNat_eq_fin, sub_self,
      fdiv_fin_of_ne _ _ (by exact_mod_cast hT.ne')]
    norm_num
  refine ⟨h, ?_⟩
  rw [h, fadd_fin_fin]
  norm_num

/-- A value compared with itself under the lower-is-better formula:
zero ratio, unit speedup, over a positive value. -/
theorem self_pair_lower (T : ℕ) (hT : 0 < T) :
    FVal.fdiv (FVal.ofInt ((T : ℤ) - (T : ℤ))) (FVal.ofNat T) = .fin 0 ∧
    FVal.fdiv (.fin 1) (FVal.fadd (.fin 1)
      (FVal.fdiv (FVal.ofInt ((T : ℤ) - (T : ℤ))) (FVal.ofNat T))) = .fin 1 := by
  have h := (self_pair_higher T hT).1
  refine ⟨h, ?_⟩
  rw [h, fadd_fin_fin, show (1 : ℚ) + 0 = 1 by norm_num,
    fdiv_fin_of_ne _ _ one_ne_zero]
  norm_num

/-! ### Concrete runs used as inputs of the closed theorems -/

/-- A small well-formed run: 1 s, 5 successes, one 10 ms latency. -/
def statsA : BenchmarkStats := ⟨⟨1, 0⟩, 0, 5, ⟨[10]⟩⟩

/-- A small well-formed run: 1 s, 10 successes, one 20 ms latency. -/
def statsB : BenchmarkStats := ⟨⟨1, 0⟩, 0, 10, ⟨[20]⟩⟩

/-! ### The claims -/

/-- Claim C1: the spec requires `cmp_tps` on a baseline with
`num_success = 0` and `duration = 0` to fail with
`ErrorKind::DegenerateBaseline`; the source instead computes the `u64`
division `0 / 0`, which panics (`none` here), and no `ErrorKind` type
exists anywhere in the sources. -/
theorem cmp_tps_zero_baseline_panics :
    (BenchmarkCmp.mk
      { duration := ⟨100, 0⟩, num_error := 0, num_success := 1000,
        latency_ms := ⟨[10]⟩ }
      { duration := ⟨0, 0⟩, num_error := 0, num_success := 0,
        latency_ms := ⟨[]⟩ }).cmp_tps = none := rfl

/-- Claim C3 counterexample: `update` takes the new duration as a
separate argument and ignores the incoming snapshot's own `duration`
field: passing 3 s alongside a sample whose `duration` is 2 s leaves the
aggregate at 3 s, not at the sample's 2 s. -/
theorem update_duration_cex :
    (BenchmarkStats.update
      { duration := ⟨1, 0⟩, num_error := 0, num_success := 0, latency_ms := ⟨[]⟩ }
      ⟨3, 0⟩
      { duration := ⟨2, 0⟩, num_error := 0, num_success := 0,
        latency_ms := ⟨[]⟩ }).duration = ⟨3, 0⟩ ∧
    (⟨3, 0⟩ : Duration) ≠ ⟨2, 0⟩ := ⟨rfl, by decide⟩

/-- Claim C3 (amended): `update` sets the aggregate's duration to the
`duration` argument passed alongside the incoming snapshot
(last-writer-wins over the aggregate's previous duration), adds the
incoming `num_success` and `num_error` to the counters, and merges the
incoming histogram into the aggregate's histogram. -/
theorem update_spec (self : BenchmarkStats) (d : Duration)
    (other : BenchmarkStats) :
    (self.update d other).duration = d ∧
    (self.update d other).num_error = self.num_error + other.num_error ∧
    (self.update d other).num_success = self.num_success + other.num_success ∧
    (self.update d other).latency_ms.histogram =
      self.latency_ms.histogram ++ other.latency_ms.histogram :=
  ⟨rfl, rfl, rfl, rfl⟩

/-- Claim C4: the spec requires the derived throughput and error-rate
queries to fail with an explicit error on a zero denominator; the
source's `to_table` divides unguarded and panics (`none` here) on a
zero-second duration and on a run with no requests. -/
theorem to_table_zero_denominator_panics :
    ({ duration := ⟨0, 0⟩, num_error := 0, num_success := 5,
       latency_ms := ⟨[10]⟩ } : BenchmarkStats).to_table = none ∧
    ({ duration := ⟨5, 0⟩, num_error := 0, num_success := 0,
       latency_ms := ⟨[]⟩ } : BenchmarkStats).to_table = none := ⟨rfl, rfl⟩

/-- Claim C7: decoding the encoded envelope of a histogram built from
any recorded values succeeds and reproduces the histogram exactly, hence
the same `min`, `max` and the same value at each of the eight quantiles
the comparator queries (codec modelled from the spec, see `encode`). -/
theorem histogram_roundtrip (h : HistogramWrapper) :
    decode (encode h) = Except.ok h ∧
    (decode (encode h)).toOption.map (fun w => listMin w.histogram) =
      some (listMin h.histogram) ∧
    (decode (encode h)).toOption.map (fun w => listMax w.histogram) =
      some (listMax h.histogram) ∧
    (decode (encode h)).toOption.map (fun w =>
        ([0, 1/4, 1/2, 3/4, 9/10, 99/100, 999/1000, 1] : List ℚ).map
          (value_at_quantile w.histogram)) =
      some (([0, 1/4, 1/2, 3/4, 9/10, 99/100, 999/1000, 1] : List ℚ).map
          (value_at_quantile h.histogram)) := by
  have hd : decode (encode h) = Except.ok h := by
    simp [encode, decode]
  refine ⟨hd, ?_, ?_, ?_⟩ <;> rw [hd] <;> rfl

set_option maxRecDepth 8000 in
/-- Claim C8: on the concrete scenario (old: 100 s, 1000 successes; new:
100 s, 2000 successes; latencies uniformly 10 ms) the throughput
comparison reports old 10, new 20, diff 10, ratio 1, speedup 2. -/
theorem cmp_tps_scenario1 :
    (BenchmarkCmp.mk
      { duration := ⟨100, 0⟩, num_error := 0, num_success := 2000,
        latency_ms := ⟨List.replicate 2000 10⟩ }
      { duration := ⟨100, 0⟩, num_error := 0, num_success := 1000,
        latency_ms := ⟨List.replicate 1000 10⟩ }).cmp_tps =
    some { name := "tps", old_value := "10", new_value := "20",
           diff := 10, diff_ratio := .fin 1, speedup := .fin 2 } := by
  simp [BenchmarkCmp.cmp_tps, Duration.as_secs, FVal.ofInt, FVal.ofNat,
    FVal.fdiv, FVal.fadd, fmt2Nat]
  norm_num
  decide

/-- Claim C9: whenever a run has successes, the integer division
`num_error / (num_error + num_success)` truncates to exactly `0`
whatever `num_error` is; comparing two such runs therefore yields a zero
diff and the `0/0 = nan` ratio. -/
theorem error_rate_truncation (old new : BenchmarkStats)
    (ho : 0 < old.num_success) (hn : 0 < new.num_success) :
    old.num_error / (old.num_error + old.num_success) = 0 ∧
    new.num_error / (new.num_error + new.num_success) = 0 ∧
    ∀ t, (BenchmarkCmp.mk new old).cmp_error_rate = some t →
      t.diff = 0 ∧ t.diff_ratio = FVal.nan := by
  have h1 : old.num_error / (old.num_error + old.num_success) = 0 :=
    Nat.div_eq_of_lt (by omega)
  have h2 : new.num_error / (new.num_error + new.num_success) = 0 :=
    Nat.div_eq_of_lt (by omega)
  refine ⟨h1, h2, fun t ht => ?_⟩
  rw [cmp_error_rate_eq _ (by simp only [BenchmarkCmp.mk]; omega)
    (by simp only [BenchmarkCmp.mk]; omega)] at ht
  injection ht with ht
  subst ht
  refine ⟨?_, ?_⟩
  · simp [h1, h2]
  · simp [h1, h2, FVal.ofInt, FVal.ofNat, FVal.fdiv]

/-- Witness for C9 at a concrete input: 3 errors / 5 successes against
2 errors / 7 successes, both error rates truncate to `0` and the
comparison's ratio is `nan`. -/
theorem error_rate_truncation_witness :
    (0 < (⟨⟨1, 0⟩, 3, 5, ⟨[10]⟩⟩ : BenchmarkStats).num_success) ∧
    (0 < (⟨⟨1, 0⟩, 2, 7, ⟨[10]⟩⟩ : BenchmarkStats).num_success) ∧
    ((⟨⟨1, 0⟩, 3, 5, ⟨[10]⟩⟩ : BenchmarkStats).num_error /
      ((⟨⟨1, 0⟩, 3, 5, ⟨[10]⟩⟩ : BenchmarkStats).num_error +
       (⟨⟨1, 0⟩, 3, 5, ⟨[10]⟩⟩ : BenchmarkStats).num_success) = 0 ∧
     (⟨⟨1, 0⟩, 2, 7, ⟨[10]⟩⟩ : BenchmarkStats).num_error /
      ((⟨⟨1, 0⟩, 2, 7, ⟨[10]⟩⟩ : BenchmarkStats).num_error +
       (⟨⟨1, 0⟩, 2, 7, ⟨[10]⟩⟩ : BenchmarkStats).num_success) = 0 ∧
     ∀ t, (BenchmarkCmp.mk (⟨⟨1, 0⟩, 2, 7, ⟨[10]⟩⟩ : BenchmarkStats)
        (⟨⟨1, 0⟩, 3, 5, ⟨[10]⟩⟩ : BenchmarkStats)).cmp_error_rate = some t →
       t.diff = 0 ∧ t.diff_ratio = FVal.nan) :=
  ⟨by decide, by decide,
   error_rate_truncation ⟨⟨1, 0⟩, 3, 5, ⟨[10]⟩⟩ ⟨⟨1, 0⟩, 2, 7, ⟨[10]⟩⟩
     (by decide) (by decide)⟩

/-- Claim C10: `is_unbounded` holds exactly of `Time Duration.MAX`; a
`u64` string parses to `Count`, the exact string "unbounded" parses to
`Time Duration.MAX`, any other string the duration grammar rejects is an
error, no `Count` is unbounded, and parsing "unbounded" yields an
unbounded interval.  The external `duration_str` grammar enters as the
parameter `pd`, assumed only to reject the non-numeric word
"unbounded". -/
theorem interval_spec (pd : String → Option Duration)
    (hpd : pd "unbounded" = none) (i : Interval) (s : String) (n m : ℕ) :
    (Interval.is_unbounded i = true ↔ i = .Time Duration.MAX) ∧
    Interval.from_str pd "unbounded" = .ok (.Time Duration.MAX) ∧
    (parseU64 s = some n → Interval.from_str pd s = .ok (.Count n)) ∧
    (parseU64 s = none → pd s = none → s ≠ "unbounded" →
      Interval.from_str pd s =
        .error "Required integer number of cycles or time duration") ∧
    Interval.is_unbounded (.Count m) = false ∧
    (Interval.from_str pd "unbounded").toOption.map Interval.is_unbounded =
      some true := by
  have hu : Interval.from_str pd "unbounded" = .ok (.Time Duration.MAX) := by
    have hp : parseU64 "unbounded" = none := by decide
    rw [Interval.from_str, hp, hpd, if_pos rfl]
  refine ⟨?_, hu, fun h => ?_, fun h1 h2 h3 => ?_, rfl, ?_⟩
  · cases i with
    | Count k => simp [Interval.is_unbounded]
    | Time d => simp [Interval.is_unbounded]
  · rw [Interval.from_str, h]
  · rw [Interval.from_str, h1, h2, if_neg h3]
  · rw [hu]
    rfl

/-- Witness for C10: the theorem applied to a duration grammar rejecting
everything, the interval `Count 3`, the string "42" and the values 42
and 7. -/
theorem interval_spec_witness :
    ((fun _ : String => (none : Option Duration)) "unbounded" = none) ∧
    ((Interval.is_unbounded (.Count 3) = true ↔
        Interval.Count 3 = .Time Duration.MAX) ∧
     Interval.from_str (fun _ => none) "unbounded" =
       .ok (.Time Duration.MAX) ∧
     (parseU64 "42" = some 42 →
       Interval.from_str (fun _ => none) "42" = .ok (.Count 42)) ∧
     (parseU64 "42" = none → (fun _ : String => (none : Option Duration)) "42" = none →
       "42" ≠ "unbounded" →
       Interval.from_str (fun _ => none) "42" =
         .error "Required integer number of cycles or time duration") ∧
     Interval.is_unbounded (.Count 7) = false ∧
     (Interval.from_str (fun _ => none) "unbounded").toOption.map
       Interval.is_unbounded = some true) :=
  ⟨rfl, interval_spec (fun _ => none) rfl (.Count 3) "42" 42 7⟩

/-- Claim C2 (amended): every comparison the comparator produces applies
`1 + diff_ratio` for throughput and `1 / (1 + diff_ratio)` for the nine
lower-is-better metrics, and whenever the metric's old value is positive
the `speedup >= 1.0` test holds exactly when the new run is at least as
good as the old for that metric; with a zero old value the equivalence
fails (the ratio is `0/0 = nan`, see the counterexample). -/
theorem speedup_convention (c : BenchmarkCmp) :
    (∀ t, c.cmp_tps = some t →
      t.speedup = FVal.fadd (.fin 1) t.diff_ratio ∧
      (0 < c.old.num_success / c.old.duration.as_secs →
        (t.speedup.fge1 = true ↔
          c.old.num_success / c.old.duration.as_secs ≤
            c.new.num_success / c.new.duration.as_secs))) ∧
    (∀ t, c.cmp_error_rate = some t →
      t.speedup = FVal.fdiv (.fin 1) (FVal.fadd (.fin 1) t.diff_ratio) ∧
      (0 < c.old.num_error / (c.old.num_error + c.old.num_success) →
        (t.speedup.fge1 = true ↔
          c.new.num_error / (c.new.num_error + c.new.num_success) ≤
            c.old.num_error / (c.old.num_error + c.old.num_success)))) ∧
    (c.cmp_min_latency.speedup =
        FVal.fdiv (.fin 1) (FVal.fadd (.fin 1) c.cmp_min_latency.diff_ratio) ∧
      (0 < listMin c.old.latency_ms.histogram →
        (c.cmp_min_latency.speedup.fge1 = true ↔
          listMin c.new.latency_ms.histogram ≤
            listMin c.old.latency_ms.histogram))) ∧
    (c.cmp_p25_latency.speedup =
        FVal.fdiv (.fin 1) (FVal.fadd (.fin 1) c.cmp_p25_latency.diff_ratio) ∧
      (0 < value_at_quantile c.old.latency_ms.histogram (1/4) →
        (c.cmp_p25_latency.speedup.fge1 = true ↔
          value_at_quantile c.new.latency_ms.histogram (1/4) ≤
            value_at_quantile c.old.latency_ms.histogram (1/4)))) ∧
    (c.cmp_p50_latency.speedup =
        FVal.fdiv (.fin 1) (FVal.fadd (.fin 1) c.cmp_p50_latency.diff_ratio) ∧
      (0 < value_at_quantile c.old.latency_ms.histogram (1/2) →
        (c.cmp_p50_latency.speedup.fge1 = true ↔
          value_at_quantile c.new.latency_ms.histogram (1/2) ≤
            value_at_quantile c.old.latency_ms.histogram (1/2)))) ∧
    (c.cmp_p75_latency.speedup =
        FVal.fdiv (.fin 1) (FVal.fadd (.fin 1) c.cmp_p75_latency.diff_ratio) ∧
      (0 < value_at_quantile c.old.latency_ms.histogram (3/4) →
        (c.cmp_p75_latency.speedup.fge1 = true ↔
          value_at_quantile c.new.latency_ms.histogram (3/4) ≤
            value_at_quantile c.old.latency_ms.histogram (3/4)))) ∧
    (c.cmp_p90_latency.speedup =
        FVal.fdiv (.fin 1) (FVal.fadd (.fin 1) c.cmp_p90_latency.diff_ratio) ∧
      (0 < value_at_quantile c.old.latency_ms.histogram (9/10) →
        (c.cmp_p90_latency.speedup.fge1 = true ↔
          value_at_quantile c.new.latency_ms.histogram (9/10) ≤
            value_at_quantile c.old.latency_ms.histogram (9/10)))) ∧
    (c.cmp_p99_latency.speedup =
        FVal.fdiv (.fin 1) (FVal.fadd (.fin 1) c.cmp_p99_latency.diff_ratio) ∧
      (0 < value_at_quantile c.old.latency_ms.histogram (99/100) →
        (c.cmp_p99_latency.speedup.fge1 = true ↔
          value_at_quantile c.new.latency_ms.histogram (99/100) ≤
            value_at_quantile c.old.latency_ms.histogram (99/100)))) ∧
    (c.cmp_p999_latency.speedup =
        FVal.fdiv (.fin 1) (FVal.fadd (.fin 1) c.cmp_p999_latency.diff_ratio) ∧
      (0 < value_at_quantile c.old.latency_ms.histogram (999/1000) →
        (c.cmp_p999_latency.speedup.fge1 = true ↔
          value_at_quantile c.new.latency_ms.histogram (999/1000) ≤
            value_at_quantile c.old.latency_ms.histogram (999/1000)))) ∧
    (c.cmp_max_latency.speedup =
        FVal.fdiv (.fin 1) (FVal.fadd (.fin 1) c.cmp_max_latency.diff_ratio) ∧
      (0 < listMax c.old.latency_ms.histogram →
        (c.cmp_max_latency.speedup.fge1 = true ↔
          listMax c.new.latency_ms.histogram ≤
            listMax c.old.latency_ms.histogram))) := by
  refine ⟨fun t ht => ?_, fun t ht => ?_, ?_, ?_, ?_, ?_, ?_, ?_, ?_, ?_⟩
  · obtain ⟨h1, h2⟩ := cmp_tps_some_inv c t ht
    rw [cmp_tps_eq c h1 h2] at ht
    injection ht with ht
    subst ht
    exact ⟨rfl, fun hpos => higher_pair_fge1 _ _ hpos⟩
  · obtain ⟨h1, h2⟩ := cmp_error_rate_some_inv c t ht
    rw [cmp_error_rate_eq c h1 h2] at ht
    injection ht with ht
    subst ht
    exact ⟨rfl, fun hpos => lower_pair_fge1 _ _ hpos⟩
  all_goals
    exact ⟨latency_speedup_formula _ _ _, fun h => latency_fge1_iff _ _ _ h⟩

/-- Claim C2 counterexample: two identical healthy runs with no errors —
the new run is at least as good on error rate (both truncated rates are
`0`), yet the ratio is `0/0 = nan`, the speedup is `nan` and the
`>= 1.0` test fails, so the claimed equivalence is false when the old
value is zero. -/
theorem speedup_convention_cex :
    (BenchmarkCmp.mk ⟨⟨1, 0⟩, 0, 10, ⟨[10]⟩⟩
        ⟨⟨1, 0⟩, 0, 10, ⟨[10]⟩⟩).cmp_error_rate =
      some { name := "error_rate", old_value := "0", new_value := "0",
             diff := 0, diff_ratio := FVal.nan, speedup := FVal.nan } ∧
    (0 : ℕ) / (0 + 10) ≤ (0 : ℕ) / (0 + 10) ∧
    FVal.fge1 FVal.nan = false := ⟨rfl, le_refl _, rfl⟩

/-- Witness for C2 at the concrete pair `statsA` (new) against `statsB`
(old). -/
theorem speedup_convention_witness :
    (∀ t, (BenchmarkCmp.mk statsA statsB).cmp_tps = some t →
      t.speedup = FVal.fadd (.fin 1) t.diff_ratio ∧
      (0 < statsB.num_success / statsB.duration.as_secs →
        (t.speedup.fge1 = true ↔
          statsB.num_success / statsB.duration.as_secs ≤
            statsA.num_success / statsA.duration.as_secs))) ∧
    (∀ t, (BenchmarkCmp.mk statsA statsB).cmp_error_rate = some t →
      t.speedup = FVal.fdiv (.fin 1) (FVal.fadd (.fin 1) t.diff_ratio) ∧
      (0 < statsB.num_error / (statsB.num_error + statsB.num_success) →
        (t.speedup.fge1 = true ↔
          statsA.num_error / (statsA.num_error + statsA.num_success) ≤
            statsB.num_error / (statsB.num_error + statsB.num_success)))) ∧
    ((BenchmarkCmp.mk statsA statsB).cmp_min_latency.speedup =
        FVal.fdiv (.fin 1) (FVal.fadd (.fin 1)
          (BenchmarkCmp.mk statsA statsB).cmp_min_latency.diff_ratio) ∧
      (0 < listMin statsB.latency_ms.histogram →
        ((BenchmarkCmp.mk statsA statsB).cmp_min_latency.speedup.fge1 = true ↔
          listMin statsA.latency_ms.histogram ≤
            listMin statsB.latency_ms.histogram))) ∧
    ((BenchmarkCmp.mk statsA statsB).cmp_p25_latency.speedup =
        FVal.fdiv (.fin 1) (FVal.fadd (.fin 1)
          (BenchmarkCmp.mk statsA statsB).cmp_p25_latency.diff_ratio) ∧
      (0 < value_at_quantile statsB.latency_ms.histogram (1/4) →
        ((BenchmarkCmp.mk statsA statsB).cmp_p25_latency.speedup.fge1 = true ↔
          value_at_quantile statsA.latency_ms.histogram (1/4) ≤
            value_at_quantile statsB.latency_ms.histogram (1/4)))) ∧
    ((BenchmarkCmp.mk statsA statsB).cmp_p50_latency.speedup =
        FVal.fdiv (.fin 1) (FVal.fadd (.fin 1)
          (BenchmarkCmp.mk statsA statsB).cmp_p50_latency.diff_ratio) ∧
      (0 < value_at_quantile statsB.latency_ms.histogram (1/2) →
        ((BenchmarkCmp.mk statsA statsB).cmp_p50_latency.speedup.fge1 = true ↔
          value_at_quantile statsA.latency_ms.histogram (1/2) ≤
            value_at_quantile statsB.latency_ms.histogram (1/2)))) ∧
    ((BenchmarkCmp.mk statsA statsB).cmp_p75_latency.speedup =
        FVal.fdiv (.fin 1) (FVal.fadd (.fin 1)
          (BenchmarkCmp.mk statsA statsB).cmp_p75_latency.diff_ratio) ∧
      (0 < value_at_quantile statsB.latency_ms.histogram (3/4) →
        ((BenchmarkCmp.mk statsA statsB).cmp_p75_latency.speedup.fge1 = true ↔
          value_at_quantile statsA.latency_ms.histogram (3/4) ≤
            value_at_quantile statsB.latency_ms.histogram (3/4)))) ∧
    ((BenchmarkCmp.mk statsA statsB).cmp_p90_latency.speedup =
        FVal.fdiv (.fin 1) (FVal.fadd (.fin 1)
          (BenchmarkCmp.mk statsA statsB).cmp_p90_latency.diff_ratio) ∧
      (0 < value_at_quantile statsB.latency_ms.histogram (9/10) →
        ((BenchmarkCmp.mk statsA statsB).cmp_p90_latency.speedup.fge1 = true ↔
          value_at_quantile statsA.latency_ms.histogram (9/10) ≤
            value_at_quantile statsB.latency_ms.histogram (9/10)))) ∧
    ((BenchmarkCmp.mk statsA statsB).cmp_p99_latency.speedup =
        FVal.fdiv (.fin 1) (FVal.fadd (.fin 1)
          (BenchmarkCmp.mk statsA statsB).cmp_p99_latency.diff_ratio) ∧
      (0 < value_at_quantile statsB.latency_ms.histogram (99/100) →
        ((BenchmarkCmp.mk statsA statsB).cmp_p99_latency.speedup.fge1 = true ↔
          value_at_quantile statsA.latency_ms.histogram (99/100) ≤
            value_at_quantile statsB.latency_ms.histogram (99/100)))) ∧
    ((BenchmarkCmp.mk statsA statsB).cmp_p999_latency.speedup =
        FVal.fdiv (.fin 1) (FVal.fadd (.fin 1)
          (BenchmarkCmp.mk statsA statsB).cmp_p999_latency.diff_ratio) ∧
      (0 < value_at_quantile statsB.latency_ms.histogram (999/1000) →
        ((BenchmarkCmp.mk statsA statsB).cmp_p999_latency.speedup.fge1 = true ↔
          value_at_quantile statsA.latency_ms.histogram (999/1000) ≤
            value_at_quantile statsB.latency_ms.histogram (999/1000)))) ∧
    ((BenchmarkCmp.mk statsA statsB).cmp_max_latency.speedup =
        FVal.fdiv (.fin 1) (FVal.fadd (.fin 1)
          (BenchmarkCmp.mk statsA statsB).cmp_max_latency.diff_ratio) ∧
      (0 < listMax statsB.latency_ms.histogram →
        ((BenchmarkCmp.mk statsA statsB).cmp_max_latency.speedup.fge1 = true ↔
          listMax statsA.latency_ms.histogram ≤
            listMax statsB.latency_ms.histogram))) :=
  speedup_convention (BenchmarkCmp.mk statsA statsB)

/-- Claim C5 (amended): comparing a snapshot with itself yields a zero
`diff` for every metric the comparator produces, and for every metric
whose baseline value is positive also a zero `diff_ratio` and a speedup
of exactly `1.0`; a metric whose baseline value is zero instead gets the
`0/0 = nan` ratio (see the counterexample, which shows this happens for
the error rate of every run that has successes). -/
theorem self_compare_identity (S : BenchmarkStats) :
    (∀ t, (BenchmarkCmp.mk S S).cmp_tps = some t →
      t.diff = 0 ∧ (0 < S.num_success / S.duration.as_secs →
        t.diff_ratio = .fin 0 ∧ t.speedup = .fin 1)) ∧
    (∀ t, (BenchmarkCmp.mk S S).cmp_error_rate = some t →
      t.diff = 0 ∧ (0 < S.num_error / (S.num_error + S.num_success) →
        t.diff_ratio = .fin 0 ∧ t.speedup = .fin 1)) ∧
    ((BenchmarkCmp.mk S S).cmp_min_latency.diff = 0 ∧
      (0 < listMin S.latency_ms.histogram →
        (BenchmarkCmp.mk S S).cmp_min_latency.diff_ratio = .fin 0 ∧
        (BenchmarkCmp.mk S S).cmp_min_latency.speedup = .fin 1)) ∧
    ((BenchmarkCmp.mk S S).cmp_p25_latency.diff = 0 ∧
      (0 < value_at_quantile S.latency_ms.histogram (1/4) →
        (BenchmarkCmp.mk S S).cmp_p25_latency.diff_ratio = .fin 0 ∧
        (BenchmarkCmp.mk S S).cmp_p25_latency.speedup = .fin 1)) ∧
    ((BenchmarkCmp.mk S S).cmp_p50_latency.diff = 0 ∧
      (0 < value_at_quantile S.latency_ms.histogram (1/2) →
        (BenchmarkCmp.mk S S).cmp_p50_latency.diff_ratio = .fin 0 ∧
        (BenchmarkCmp.mk S S).cmp_p50_latency.speedup = .fin 1)) ∧
    ((BenchmarkCmp.mk S S).cmp_p75_latency.diff = 0 ∧
      (0 < value_at_quantile S.latency_ms.histogram (3/4) →
        (BenchmarkCmp.mk S S).cmp_p75_latency.diff_ratio = .fin 0 ∧
        (BenchmarkCmp.mk S S).cmp_p75_latency.speedup = .fin 1)) ∧
    ((BenchmarkCmp.mk S S).cmp_p90_latency.diff = 0 ∧
      (0 < value_at_quantile S.latency_ms.histogram (9/10) →
        (BenchmarkCmp.mk S S).cmp_p90_latency.diff_ratio = .fin 0 ∧
        (BenchmarkCmp.mk S S).cmp_p90_latency.speedup = .fin 1)) ∧
    ((BenchmarkCmp.mk S S).cmp_p99_latency.diff = 0 ∧
      (0 < value_at_quantile S.latency_ms.histogram (99/100) →
        (BenchmarkCmp.mk S S).cmp_p99_latency.diff_ratio = .fin 0 ∧
        (BenchmarkCmp.mk S S).cmp_p99_latency.speedup = .fin 1)) ∧
    ((BenchmarkCmp.mk S S).cmp_p999_latency.diff = 0 ∧
      (0 < value_at_quantile S.latency_ms.histogram (999/1000) →
        (BenchmarkCmp.mk S S).cmp_p999_latency.diff_ratio = .fin 0 ∧
        (BenchmarkCmp.mk S S).cmp_p999_latency.speedup = .fin 1)) ∧
    ((BenchmarkCmp.mk S S).cmp_max_latency.diff = 0 ∧
      (0 < listMax S.latency_ms.histogram →
        (BenchmarkCmp.mk S S).cmp_max_latency.diff_ratio = .fin 0 ∧
        (BenchmarkCmp.mk S S).cmp_max_latency.speedup = .fin 1)) := by
  refine ⟨fun t ht => ?_, fun t ht => ?_, ?_, ?_, ?_, ?_, ?_, ?_, ?_, ?_⟩
  · obtain ⟨h1, h2⟩ := cmp_tps_some_inv _ t ht
    rw [cmp_tps_eq _ h1 h2] at ht
    injection ht with ht
    subst ht
    exact ⟨by simp, fun hpos =>
      ⟨(self_pair_higher _ hpos).1, (self_pair_higher _ hpos).2⟩⟩
  · obtain ⟨h1, h2⟩ := cmp_error_rate_some_inv _ t ht
    rw [cmp_error_rate_eq _ h1 h2] at ht
    injection ht with ht
    subst ht
    exact ⟨by simp, fun hpos =>
      ⟨(self_pair_lower _ hpos).1, (self_pair_lower _ hpos).2⟩⟩
  all_goals exact latency_self _ _

/-- Claim C5 counterexample: a healthy run (1000 successes, no errors)
compared with itself — its error-rate baseline truncates to `0`, the
ratio is `0/0 = nan` and the speedup is `nan`, not the claimed `1.0`, so
`compare(S, S)` does not yield `speedup = 1.0` for all ten metrics. -/
theorem self_compare_identity_cex :
    ((BenchmarkCmp.mk ⟨⟨100, 0⟩, 0, 1000, ⟨[10]⟩⟩
        ⟨⟨100, 0⟩, 0, 1000, ⟨[10]⟩⟩).cmp_error_rate).map Comparison.speedup =
      some FVal.nan ∧ FVal.nan ≠ FVal.fin 1 := ⟨rfl, by decide⟩

/-- Witness for C5 at the concrete run `statsB`. -/
theorem self_compare_identity_witness :
    (∀ t, (BenchmarkCmp.mk statsB statsB).cmp_tps = some t →
      t.diff = 0 ∧ (0 < statsB.num_success / statsB.duration.as_secs →
        t.diff_ratio = .fin 0 ∧ t.speedup = .fin 1)) ∧
    (∀ t, (BenchmarkCmp.mk statsB statsB).cmp_error_rate = some t →
      t.diff = 0 ∧
        (0 < statsB.num_error / (statsB.num_error + statsB.num_success) →
          t.diff_ratio = .fin 0 ∧ t.speedup = .fin 1)) ∧
    ((BenchmarkCmp.mk statsB statsB).cmp_min_latency.diff = 0 ∧
      (0 < listMin statsB.latency_ms.histogram →
        (BenchmarkCmp.mk statsB statsB).cmp_min_latency.diff_ratio = .fin 0 ∧
        (BenchmarkCmp.mk statsB statsB).cmp_min_latency.speedup = .fin 1)) ∧
    ((BenchmarkCmp.mk statsB statsB).cmp_p25_latency.diff = 0 ∧
      (0 < value_at_quantile statsB.latency_ms.histogram (1/4) →
        (BenchmarkCmp.mk statsB statsB).cmp_p25_latency.diff_ratio = .fin 0 ∧
        (BenchmarkCmp.mk statsB statsB).cmp_p25_latency.speedup = .fin 1)) ∧
    ((BenchmarkCmp.mk statsB statsB).cmp_p50_latency.diff = 0 ∧
      (0 < value_at_quantile statsB.latency_ms.histogram (1/2) →
        (BenchmarkCmp.mk statsB statsB).cmp_p50_latency.diff_ratio = .fin 0 ∧
        (BenchmarkCmp.mk statsB statsB).cmp_p50_latency.speedup = .fin 1)) ∧
    ((BenchmarkCmp.mk statsB statsB).cmp_p75_latency.diff = 0 ∧
      (0 < value_at_quantile statsB.latency_ms.histogram (3/4) →
        (BenchmarkCmp.mk statsB statsB).cmp_p75_latency.diff_ratio = .fin 0 ∧
        (BenchmarkCmp.mk statsB statsB).cmp_p75_latency.speedup = .fin 1)) ∧
    ((BenchmarkCmp.mk statsB statsB).cmp_p90_latency.diff = 0 ∧
      (0 < value_at_quantile statsB.latency_ms.histogram (9/10) →
        (BenchmarkCmp.mk statsB statsB).cmp_p90_latency.diff_ratio = .fin 0 ∧
        (BenchmarkCmp.mk statsB statsB).cmp_p90_latency.speedup = .fin 1)) ∧
    ((BenchmarkCmp.mk statsB statsB).cmp_p99_latency.diff = 0 ∧
      (0 < value_at_quantile statsB.latency_ms.histogram (99/100) →
        (BenchmarkCmp.mk statsB statsB).cmp_p99_latency.diff_ratio = .fin 0 ∧
        (BenchmarkCmp.mk statsB statsB).cmp_p99_latency.speedup = .fin 1)) ∧
    ((BenchmarkCmp.mk statsB statsB).cmp_p999_latency.diff = 0 ∧
      (0 < value_at_quantile statsB.latency_ms.histogram (999/1000) →
        (BenchmarkCmp.mk statsB statsB).cmp_p999_latency.diff_ratio = .fin 0 ∧
        (BenchmarkCmp.mk statsB statsB).cmp_p999_latency.speedup = .fin 1)) ∧
    ((BenchmarkCmp.mk statsB statsB).cmp_max_latency.diff = 0 ∧
      (0 < listMax statsB.latency_ms.histogram →
        (BenchmarkCmp.mk statsB statsB).cmp_max_latency.diff_ratio = .fin 0 ∧
        (BenchmarkCmp.mk statsB statsB).cmp_max_latency.speedup = .fin 1)) :=
  self_compare_identity statsB

/-- Claim C6 (amended): whenever the comparator returns (neither counter
division panics) it returns exactly ten comparisons, in the fixed order
throughput, error rate, min, p25, p50, p75, p90, p99, p99.9 and max
latency; the name strings carried are "tps" for the throughput record
and "p999_latency" for the p99.9 record — not "throughput" and
"p99.9_latency" — and for the other eight metrics as the claim lists
them. -/
theorem all_cmps_names (c : BenchmarkCmp) (l : List Comparison)
    (hl : c.all_cmps = some l) :
    l.length = 10 ∧
    l.map Comparison.name =
      ["tps", "error_rate", "min_latency", "p25_latency", "p50_latency",
       "p75_latency", "p90_latency", "p99_latency", "p999_latency",
       "max_latency"] := by
  cases htps : c.cmp_tps with
  | none =>
      rw [BenchmarkCmp.all_cmps, htps] at hl
      cases herr : c.cmp_error_rate <;> rw [herr] at hl <;> cases hl
  | some t =>
      cases herr : c.cmp_error_rate with
      | none =>
          rw [BenchmarkCmp.all_cmps, htps, herr] at hl
          cases hl
      | some e =>
          rw [BenchmarkCmp.all_cmps, htps, herr] at hl
          injection hl with hl
          subst hl
          obtain ⟨h1, h2⟩ := cmp_tps_some_inv c t htps
          rw [cmp_tps_eq c h1 h2] at htps
          injection htps with htps
          subst htps
          obtain ⟨h3, h4⟩ := cmp_error_rate_some_inv c e herr
          rw [cmp_error_rate_eq c h3 h4] at herr
          injection herr with herr
          subst herr
          exact ⟨rfl, rfl⟩

/-- Claim C6 counterexample: at a concrete healthy pair the first record
carries the name "tps" and the ninth "p999_latency", so the records do
not carry the names "throughput" and "p99.9_latency" the claim lists. -/
theorem all_cmps_names_cex :
    ((BenchmarkCmp.mk ⟨⟨1, 0⟩, 1, 1, ⟨[10]⟩⟩
        ⟨⟨1, 0⟩, 1, 1, ⟨[10]⟩⟩).all_cmps).map (fun l => l.map Comparison.name) =
      some ["tps", "error_rate", "min_latency", "p25_latency", "p50_latency",
            "p75_latency", "p90_latency", "p99_latency", "p999_latency",
            "max_latency"] ∧
    ("tps" : String) ≠ "throughput" ∧
    ("p999_latency" : String) ≠ "p99.9_latency" := ⟨rfl, by decide, by decide⟩

/-- Witness for C6: the comparator's output at the concrete pair
`statsA` (new) against `statsB` (old) exists and has the ten names in
order. -/
theorem all_cmps_names_witness :
    ∃ l, (BenchmarkCmp.mk statsA statsB).all_cmps = some l ∧ l.length = 10 ∧
      l.map Comparison.name =
        ["tps", "error_rate", "min_latency", "p25_latency", "p50_latency",
         "p75_latency", "p90_latency", "p99_latency", "p999_latency",
         "max_latency"] := by
  obtain ⟨l, hl⟩ : ∃ l, (BenchmarkCmp.mk statsA statsB).all_cmps = some l :=
    ⟨_, rfl⟩
  exact ⟨l, hl, all_cmps_names _ l hl⟩

end SuiBench
